import Mathlib

/-!
Shallow embedding of the organization role/permission engine and invitation
lifecycle of the backend repository.

The repository ships two revisions of the organization service:
the canonical one in `src/features/organizations/organization.service.ts`
(imported and called by the Express routes), and a second revision embedded
at the end of `src/features/organizations/organization.routes.ts`.
Definitions suffixed `Routes` model the second revision; unsuffixed
definitions model `organization.service.ts`.

The relational store (Supabase/PostgREST over the tables created by
`supabase/migrations/20250508062256_RBAC.sql` and the invitations
migration) is modelled as in-memory lists of rows.  A Supabase call either
succeeds or fails; failures that are determined by the state (unique-key
violations, `.single()` finding no row) are modelled from the table
constraints, while storage faults that are not state-determined (e.g. the
network dying during an insert) are modelled by explicit boolean fault
parameters on the operations whose claims mention them.  Timestamps are
naturals (milliseconds); `gen_random_uuid()` / `crypto.randomBytes`
results are passed in as parameters.
-/

namespace Spec2Proof

/-- Mirror of `AppError` from `src/lib/errors.ts`: a message plus the HTTP
status code the route layer responds with. -/
structure AppError where
  message : String
  statusCode : Nat
deriving DecidableEq

/-- Row of `public.organizations` (fields used by the modelled operations). -/
structure Organization where
  org_id : String
  org_handle : String
deriving DecidableEq

/-- Row of `public.organization_roles`. -/
structure OrganizationRole where
  org_role_id : String
  org_id : String
  role_name : String
  is_system_role : Bool
deriving DecidableEq

/-- Row of `public.organization_role_permissions`. -/
structure OrganizationRolePermission where
  org_role_id : String
  permission_id : String
deriving DecidableEq

/-- Row of `public.organization_members`.  `email` and `display_name` are
nullable denormalized snapshot columns (RBAC migration lines 68-80). -/
structure OrganizationMember where
  id : String
  org_id : String
  user_id : String
  org_role_id : String
  email : Option String
  display_name : Option String
deriving DecidableEq

/-- Row of `public.organization_invitations`.  `status` is kept as the
string the TypeScript code compares and writes ("pending", "accepted",
"declined", "expired"); `expires_at` is a millisecond timestamp. -/
structure OrganizationInvitation where
  invitation_id : String
  org_id : String
  invited_email : String
  invited_by_user_id : String
  role_to_assign_id : String
  token : String
  status : String
  expires_at : Nat
deriving DecidableEq

/-- Row of `auth.users` (the fields the service reads: id, email, and
`raw_user_meta_data.display_name`). -/
structure AuthUser where
  id : String
  email : String
  display_name : Option String
deriving DecidableEq

/-- The relational store. `app_permissions` is the permission catalog
(`permission_id` strings). -/
structure Database where
  app_permissions : List String
  organizations : List Organization
  organization_roles : List OrganizationRole
  organization_role_permissions : List OrganizationRolePermission
  organization_members : List OrganizationMember
  organization_invitations : List OrganizationInvitation
  auth_users : List AuthUser
deriving DecidableEq

/-- JavaScript `a || b` on an optional string: `null`/`undefined` and the
empty string are falsy. -/
def jsOrString (a : Option String) (b : String) : String :=
  match a with
  | some s => if s == "" then b else s
  | none => b

/-- `UPDATE organization_invitations SET status = st WHERE invitation_id = ι`. -/
def updateInvitationStatus (l : List OrganizationInvitation) (ι st : String) :
    List OrganizationInvitation :=
  l.map (fun i => if i.invitation_id == ι then { i with status := st } else i)

/-- Status of the invitation row with a given `invitation_id`. -/
def invitationStatus (db : Database) (ι : String) : Option String :=
  (db.organization_invitations.find? (fun i => i.invitation_id == ι)).map (·.status)

/-- The `.eq("email", invitedEmail)` filter the routes-revision
`inviteUserToOrganization` applies to `organization_members`
(organization.routes.ts lines 1066-1070): SQL equality against a nullable
column, so a `NULL` email never matches. -/
def memberEmailEq (m : OrganizationMember) (e : String) : Bool :=
  m.email == some e

/-- JavaScript `String.prototype.toLowerCase` as the code applies it to
emails: per-character lowercasing (`Char.toLower` lowers the Latin
letters these email strings consist of). -/
def lowercaseString (s : String) : String :=
  ⟨s.data.map Char.toLower⟩

/-- The invited-email guard of `acceptInvitation`/`declineInvitation` in
`organization.service.ts` (lines 351, 499): both sides lowercased; `true`
means the caller passes the guard. -/
def emailGuardService (invitedEmail callerEmail : String) : Bool :=
  lowercaseString invitedEmail == lowercaseString callerEmail

/-- The invited-email guard of the revision embedded in
`organization.routes.ts` (lines 1167, 1315): strict string equality;
`true` means the caller passes the guard. -/
def emailGuardRoutes (invitedEmail callerEmail : String) : Bool :=
  invitedEmail == callerEmail

/-- `organizationService.getUserPermissionsForOrganization` from
`organization.service.ts` lines 856-881 (the copy in the routes-revision,
lines 1619-1644, is textually identical).  A missing membership row
(`PGRST116`) yields the empty list, not an error. -/
def getUserPermissionsForOrganization (db : Database) (userId orgId : String) :
    Except AppError (List String) :=
  match db.organization_members.find? (fun m => m.org_id == orgId && m.user_id == userId) with
  | none => .ok []
  | some memberData =>
      .ok ((db.organization_role_permissions.filter
            (fun p => p.org_role_id == memberData.org_role_id)).map (·.permission_id))

/-- Outcome of the `checkPermission` Express middleware: either the request
is passed on (`next()` with no argument) or it is rejected with an
`AppError`. -/
inductive MiddlewareOutcome where
  | allow
  | deny (e : AppError)
deriving DecidableEq

/-- The `checkPermission` middleware from `src/lib/permission.middleware.ts`
(lines 70-135): resolves the caller's membership row, then counts
role-permission rows for the required permission. -/
def checkPermission (db : Database) (userId orgId requiredPermission : String) :
    MiddlewareOutcome :=
  match db.organization_members.find? (fun m => m.org_id == orgId && m.user_id == userId) with
  | none => .deny ⟨"User is not a member of this organization.", 403⟩
  | some memberData =>
      let permissionCount :=
        (db.organization_role_permissions.filter
          (fun p => p.org_role_id == memberData.org_role_id &&
                    p.permission_id == requiredPermission)).length
      if permissionCount > 0 then .allow
      else .deny ⟨"Forbidden: User does not have the required '" ++
                  requiredPermission ++ "' permission.", 403⟩

/-- Hours before an invitation expires (`INVITATION_EXPIRY_HOURS`). -/
def INVITATION_EXPIRY_HOURS : Nat := 72

/-- `CreateOrganizationInput` after zod validation
(`organization.validation.ts` lines 4-39). -/
structure CreateOrganizationInput where
  org_name : String
  org_handle : String
  org_description : Option String
  org_logo : Option String
  org_industry : Option String
  org_location : Option String
  website : Option String
deriving DecidableEq

/-- The `creator` argument of `createOrganization`: the authenticated user's
id, optional email, and `user_metadata.display_name`. -/
structure Creator where
  id : String
  email : Option String
  display_name : Option String
deriving DecidableEq

/-- What `createOrganization` returns (the fields relevant to the claims). -/
structure CreateOrganizationResult where
  org_id : String
  creator_role : String
  creator_role_id : String
deriving DecidableEq

/-- `organizationService.createOrganization` from `organization.service.ts`
lines 12-197.  `newOrgId`, `ownerRoleId`, `memberRoleId` and
`newMemberRowId` stand for the `gen_random_uuid()` defaults of the four
inserted rows.  Unique-key violations (error 23505) are derived from the
table constraints: `org_handle` unique on organizations, `(org_id,
role_name)` unique on organization_roles, `(org_id, user_id)` unique on
organization_members. -/
def createOrganization (db : Database) (input : CreateOrganizationInput) (creator : Creator)
    (newOrgId ownerRoleId memberRoleId newMemberRowId : String) :
    Except AppError CreateOrganizationResult × Database :=
  let creatorEmail := creator.email
  let creatorDisplayName :=
    jsOrString creator.display_name
      (jsOrString (creatorEmail.map (fun e => (e.splitOn "@").headD "")) "Creator")
  -- Step 1: insert the organization (23505 on org_handle -> 409)
  if db.organizations.any (fun o => o.org_handle == input.org_handle) then
    (.error ⟨"Organization handle '" ++ input.org_handle ++ "' already exists.", 409⟩, db)
  else
    let db1 : Database := { db with organizations := db.organizations ++ [⟨newOrgId, input.org_handle⟩] }
    -- Step 2a: insert the default "Owner" role (any insert error -> 500)
    if db1.organization_roles.any (fun r => r.org_id == newOrgId && r.role_name == "Owner") then
      (.error ⟨"Failed to create default Owner role for organization", 500⟩, db1)
    else
      let db2 : Database := { db1 with organization_roles :=
        (db1.organization_roles ++ [⟨ownerRoleId, newOrgId, "Owner", true⟩]) }
      -- Step 2b: insert the default "Member" role
      if db2.organization_roles.any (fun r => r.org_id == newOrgId && r.role_name == "Member") then
        (.error ⟨"Failed to create default Member role for organization", 500⟩, db2)
      else
        let db3 : Database := { db2 with organization_roles :=
          (db2.organization_roles ++ [⟨memberRoleId, newOrgId, "Member", true⟩]) }
        -- Step 3: fetch every permission_id from app_permissions and assign
        -- all of them to the Owner role (skipped when the catalog is empty)
        let ownerRolePermissions := db3.app_permissions.map
          (fun p => OrganizationRolePermission.mk ownerRoleId p)
        let db4 : Database :=
          if ownerRolePermissions.length > 0 then
            { db3 with organization_role_permissions :=
              (db3.organization_role_permissions ++ ownerRolePermissions) }
          else db3
        -- Step 4: insert the creator as a member holding the Owner role
        if db4.organization_members.any
            (fun m => m.org_id == newOrgId && m.user_id == creator.id) then
          (.error ⟨"Failed to assign creator as organization owner", 500⟩, db4)
        else
          let db5 : Database := { db4 with organization_members :=
            (db4.organization_members ++
              [⟨newMemberRowId, newOrgId, creator.id, ownerRoleId,
                creatorEmail, some creatorDisplayName⟩]) }
          (.ok ⟨newOrgId, "Owner", ownerRoleId⟩, db5)

/-- `InviteUserInput` after zod validation (`organization.validation.ts`
lines 62-66). -/
structure InviteUserInput where
  invited_email : String
  org_role_id : String
deriving DecidableEq

/-- `organizationService.inviteUserToOrganization` from
`organization.service.ts` lines 199-314.  The invited email is lowercased
before every comparison and before storage.  `token` stands for the
`crypto.randomBytes(32).toString("hex")` value and `freshInvitationId` for
the row's `gen_random_uuid()`; inserting a duplicate primary key or a
duplicate (unique) token fails the insert, which the code maps to 500. -/
def inviteUserToOrganization (db : Database) (orgId inviterUserId : String)
    (input : InviteUserInput) (now : Nat) (token freshInvitationId : String) :
    Except AppError OrganizationInvitation × Database :=
  -- Step 1: the role must belong to the organization
  match db.organization_roles.find?
      (fun r => r.org_id == orgId && r.org_role_id == input.org_role_id) with
  | none => (.error ⟨"Specified role not found for this organization.", 400⟩, db)
  | some _ =>
    let lowercasedInvitedEmail := lowercaseString input.invited_email
    -- Step 2a: if the email belongs to an auth user, reject if that user is
    -- already an active member of this organization
    let alreadyActiveMember : Bool :=
      (db.auth_users.find? (fun u => u.email == lowercasedInvitedEmail)).any
        (fun existingUser =>
          decide ((db.organization_members.filter
            (fun m => m.org_id == orgId && m.user_id == existingUser.id)).length > 0))
    if alreadyActiveMember then
      (.error ⟨input.invited_email ++ " is already an active member of this organization.",
               409⟩, db)
    else
      -- Step 2b: reject if a pending invitation already exists
      if (db.organization_invitations.filter
          (fun i => i.org_id == orgId && i.invited_email == lowercasedInvitedEmail &&
                    i.status == "pending")).length > 0 then
        (.error ⟨"An active invitation already exists for " ++ lowercasedInvitedEmail ++
                 " for this organization.", 409⟩, db)
      else
        -- Steps 3-4: create the pending invitation, expiring 72h from now
        let expiresAt := now + INVITATION_EXPIRY_HOURS * 60 * 60 * 1000
        if db.organization_invitations.any
            (fun i => i.invitation_id == freshInvitationId || i.token == token) then
          (.error ⟨"Failed to create invitation.", 500⟩, db)
        else
          let invitation : OrganizationInvitation :=
            ⟨freshInvitationId, orgId, lowercasedInvitedEmail, inviterUserId,
             input.org_role_id, token, "pending", expiresAt⟩
          (.ok invitation,
           { db with organization_invitations := db.organization_invitations ++ [invitation] })

/-- What `acceptInvitation` returns on success. -/
structure AcceptInvitationResult where
  organization_id : String
  role_assigned_id : String
deriving DecidableEq

/-- `organizationService.acceptInvitation` from `organization.service.ts`
lines 316-468.  `now` is the current time; `freshMemberId` stands for the
`gen_random_uuid()` of a newly inserted membership row.  The final
invitation update also writes a `user_id` field that is not a column of
the invitations table; the modelled store accepts the update and keeps the
declared columns.  The 23505 branch of the member insert fires exactly
when a unique constraint of organization_members is violated. -/
def acceptInvitation (db : Database) (token acceptingUserId acceptingUserEmail : String)
    (now : Nat) (freshMemberId : String) :
    Except AppError AcceptInvitationResult × Database :=
  -- Step 1: find the invitation by token
  match db.organization_invitations.find? (fun i => i.token == token) with
  | none => (.error ⟨"Invalid or expired invitation token.", 404⟩, db)
  | some invitation =>
    -- Step 2: status and expiry
    if invitation.status != "pending" then
      (.error ⟨"Invitation is already " ++ invitation.status ++ ".", 409⟩, db)
    else if invitation.expires_at < now then
      (.error ⟨"Invitation token has expired.", 410⟩,
       { db with organization_invitations :=
          (updateInvitationStatus db.organization_invitations invitation.invitation_id
            "expired") })
    -- Step 3: invited-email guard (lowercased on both sides)
    else if !emailGuardService invitation.invited_email acceptingUserEmail then
      (.error ⟨"Email mismatch: This invitation is intended for a different email address.",
               403⟩, db)
    else
      -- Step 4: is the accepting user already a member?
      let memberCount := (db.organization_members.filter
        (fun m => m.org_id == invitation.org_id && m.user_id == acceptingUserId)).length
      if memberCount > 0 then
        -- already a member: mark accepted, refresh the denormalized fields
        let db1 : Database := { db with organization_invitations :=
          (updateInvitationStatus db.organization_invitations invitation.invitation_id
            "accepted") }
        match db1.auth_users.find? (fun u => u.id == acceptingUserId) with
        | none => (.error ⟨"Failed to fetch user details for joining organization.", 500⟩, db1)
        | some acceptingUserAuthData =>
          let userDisplayName :=
            jsOrString acceptingUserAuthData.display_name
              (jsOrString (some ((acceptingUserEmail.splitOn "@").headD "")) "Member")
          let db2 : Database := { db1 with organization_members :=
            (db1.organization_members.map
              (fun m => if m.org_id == invitation.org_id && m.user_id == acceptingUserId then
                          { m with email := some acceptingUserEmail,
                                   display_name := some userDisplayName }
                        else m)) }
          (.ok ⟨invitation.org_id, invitation.role_to_assign_id⟩, db2)
      else
        -- Step 5: insert the new membership row (only org_id, user_id and
        -- org_role_id are set; email/display_name stay NULL)
        if db.organization_members.any
            (fun m => m.id == freshMemberId ||
                      (m.org_id == invitation.org_id && m.user_id == acceptingUserId)) then
          -- unique violation (23505): still mark the invite accepted
          (.error ⟨"User is already a member of this organization (concurrent join).", 409⟩,
           { db with organization_invitations :=
              (updateInvitationStatus db.organization_invitations invitation.invitation_id
                "accepted") })
        else
          let db1 : Database := { db with organization_members :=
            (db.organization_members ++
              [⟨freshMemberId, invitation.org_id, acceptingUserId,
                invitation.role_to_assign_id, none, none⟩]) }
          -- Step 6: mark the invitation accepted
          let db2 : Database := { db1 with organization_invitations :=
            (updateInvitationStatus db1.organization_invitations invitation.invitation_id
              "accepted") }
          (.ok ⟨invitation.org_id, invitation.role_to_assign_id⟩, db2)

/-- `organizationService.declineInvitation` from `organization.service.ts`
lines 470-518. -/
def declineInvitation (db : Database) (token decliningUserEmail : String) (now : Nat) :
    Except AppError Unit × Database :=
  match db.organization_invitations.find? (fun i => i.token == token) with
  | none => (.error ⟨"Invalid or expired invitation token.", 404⟩, db)
  | some invitation =>
    if invitation.status != "pending" then
      (.error ⟨"Invitation is already " ++ invitation.status ++ ". Cannot decline.", 409⟩, db)
    else if invitation.expires_at < now then
      (.error ⟨"Invitation token has expired. Cannot decline.", 410⟩,
       { db with organization_invitations :=
          (updateInvitationStatus db.organization_invitations invitation.invitation_id
            "expired") })
    else if !emailGuardService invitation.invited_email decliningUserEmail then
      (.error ⟨"Email mismatch: This invitation is intended for a different email address.",
               403⟩, db)
    else
      (.ok (),
       { db with organization_invitations :=
          (updateInvitationStatus db.organization_invitations invitation.invitation_id
            "declined") })

/-- `CreateOrgRoleInput` after zod validation (`organization.validation.ts`
lines 76-91): `role_name` and `permission_ids` are required (the latter may
be empty), `description` is optional. -/
structure CreateOrgRoleInput where
  role_name : String
  description : Option String
  permission_ids : List String
deriving DecidableEq

/-- What `createOrganizationRole` returns on success. -/
structure CreatedOrgRole where
  org_role_id : String
  role_name : String
  assigned_permissions : List String
deriving DecidableEq

/-- `organizationService.createOrganizationRole` from
`organization.service.ts` lines 532-609.  `newRoleId` stands for the role
row's `gen_random_uuid()`.  `permInsertFault` models a storage fault on the
`organization_role_permissions` insert (step 3); on that fault this
revision surfaces a 500 but performs no compensating delete, so the role
row inserted in step 2 stays in the table. -/
def createOrganizationRole (db : Database) (orgId : String) (input : CreateOrgRoleInput)
    (newRoleId : String) (permInsertFault : Bool) :
    Except AppError CreatedOrgRole × Database :=
  -- Step 1: every provided permission id must exist in app_permissions
  let foundIds := db.app_permissions.filter (fun p => input.permission_ids.contains p)
  if input.permission_ids.length > 0 && foundIds.length != input.permission_ids.length then
    (.error ⟨"Invalid permission IDs provided: " ++
             String.intercalate ", "
               (input.permission_ids.filter (fun i => !foundIds.contains i)) ++ ".", 400⟩, db)
  else
    -- Step 2: insert the role; 23505 on (org_id, role_name) -> 409
    if db.organization_roles.any
        (fun r => r.org_id == orgId && r.role_name == input.role_name) then
      (.error ⟨"Role name '" ++ input.role_name ++ "' already exists in this organization.",
               409⟩, db)
    else
      let db1 : Database := { db with organization_roles :=
        (db.organization_roles ++ [⟨newRoleId, orgId, input.role_name, false⟩]) }
      -- Step 3: insert the permission assignments (skipped when empty)
      if input.permission_ids.length > 0 then
        if permInsertFault then
          (.error ⟨"Role created, but failed to assign permissions.", 500⟩, db1)
        else
          let db2 : Database := { db1 with organization_role_permissions :=
            (db1.organization_role_permissions ++
              input.permission_ids.map (fun p => OrganizationRolePermission.mk newRoleId p)) }
          (.ok ⟨newRoleId, input.role_name, input.permission_ids⟩, db2)
      else
        (.ok ⟨newRoleId, input.role_name, input.permission_ids⟩, db1)

/-- `UpdateOrgRoleInput` after zod validation (`organization.validation.ts`
lines 93-111): every field optional; `description` may also be an explicit
null (`some none`). -/
structure UpdateOrgRoleInput where
  role_name : Option String
  description : Option (Option String)
  permission_ids : Option (List String)
deriving DecidableEq

/-- What `updateOrganizationRole` returns on success. -/
structure UpdatedOrgRole where
  org_role_id : String
  role_name : String
  is_system_role : Bool
  permissions : List String
deriving DecidableEq

/-- `organizationService.updateOrganizationRole` from
`organization.service.ts` lines 636-750.  The system-role rename guard
(lines 651-653) throws with statusCode 400; `input.role_name` is tested
for JavaScript truthiness, so the guard also requires a non-empty string.
The `description` column is not part of `organization_roles` in the RBAC
migration, so the model keeps only the declared columns; `description`
still counts towards the "is there anything to update" check.  When
`permission_ids` is supplied the whole permission set is replaced
(delete-all, then insert-new). -/
def updateOrganizationRole (db : Database) (orgId orgRoleId : String)
    (input : UpdateOrgRoleInput) : Except AppError UpdatedOrgRole × Database :=
  -- Step 0: the role must exist in this organization
  match db.organization_roles.find?
      (fun r => r.org_id == orgId && r.org_role_id == orgRoleId) with
  | none => (.error ⟨"Role not found in this organization.", 404⟩, db)
  | some existingRole =>
    if existingRole.is_system_role &&
       input.role_name.any (fun n => n != "" && n != existingRole.role_name) then
      (.error ⟨"System role names cannot be changed.", 400⟩, db)
    else
      -- Step 1: validate the new permission ids if provided
      let permCheckInput := (input.permission_ids).getD []
      let foundIds := db.app_permissions.filter (fun p => permCheckInput.contains p)
      if (input.permission_ids).any
          (fun ps => decide (ps.length > 0) && foundIds.length != ps.length) then
        (.error ⟨"Invalid permission IDs provided for update: " ++
                 String.intercalate ", "
                   (permCheckInput.filter (fun i => !foundIds.contains i)) ++ ".", 400⟩, db)
      else
        -- Step 2: update name/description when the payload is non-empty;
        -- 23505 on (org_id, role_name) -> 409
        let payloadNonempty : Bool := input.role_name.isSome || input.description.isSome
        if payloadNonempty &&
           input.role_name.any (fun n => db.organization_roles.any
             (fun r => r.org_id == orgId && r.role_name == n && r.org_role_id != orgRoleId)) then
          (.error ⟨"Role name '" ++ (input.role_name).getD "" ++
                   "' already exists in this organization.", 409⟩, db)
        else
          let roles1 : List OrganizationRole :=
            if payloadNonempty then
              db.organization_roles.map (fun r =>
                if r.org_role_id == orgRoleId then
                  { r with role_name := (input.role_name).getD r.role_name }
                else r)
            else db.organization_roles
          let db1 : Database := { db with organization_roles := roles1 }
          -- Step 3: full replacement of the permission set if provided
          let db2 : Database :=
            match input.permission_ids with
            | none => db1
            | some ps =>
              { db1 with organization_role_permissions :=
                ((db1.organization_role_permissions.filter
                    (fun p => p.org_role_id != orgRoleId)) ++
                  ps.map (fun pid => OrganizationRolePermission.mk orgRoleId pid)) }
          -- refetch the updated role
          match db2.organization_roles.find? (fun r => r.org_role_id == orgRoleId) with
          | none => (.error ⟨"Role updated, but failed to retrieve latest state.", 500⟩, db2)
          | some updatedRole =>
            (.ok ⟨updatedRole.org_role_id, updatedRole.role_name, updatedRole.is_system_role,
              ((db2.organization_role_permissions.filter
                  (fun p => p.org_role_id == orgRoleId)).map (·.permission_id))⟩, db2)

/-- `organizationService.assignOrganizationMemberRole` from
`organization.service.ts` lines 804-854.  This revision takes no operator
argument: it checks only that the role belongs to the organization and
that the target is a member, then updates the member's `org_role_id`. -/
def assignOrganizationMemberRole (db : Database) (orgId memberUserId newRoleId : String) :
    Except AppError OrganizationMember × Database :=
  -- Step 1: the new role must exist within this organization
  match db.organization_roles.find?
      (fun r => r.org_id == orgId && r.org_role_id == newRoleId) with
  | none => (.error ⟨"Specified role not found for this organization.", 400⟩, db)
  | some _ =>
    -- Step 2: the target must be a member of this organization
    match db.organization_members.find?
        (fun m => m.org_id == orgId && m.user_id == memberUserId) with
    | none =>
        (.error ⟨"User " ++ memberUserId ++ " is not a member of this organization.", 404⟩, db)
    | some _ =>
      -- Step 3: update the member's role
      let members1 : List OrganizationMember :=
        db.organization_members.map (fun m =>
          if m.org_id == orgId && m.user_id == memberUserId then
            { m with org_role_id := newRoleId }
          else m)
      let db1 : Database := { db with organization_members := members1 }
      match members1.find? (fun m => m.org_id == orgId && m.user_id == memberUserId) with
      | some updatedMember => (.ok updatedMember, db1)
      | none =>
          (.error ⟨"Failed to update member role, member not found during update.", 404⟩, db1)

/-! ### The second service revision, embedded in `organization.routes.ts` -/

/-- `inviteUserToOrganization` from the revision embedded in
`organization.routes.ts` (lines 1042-1135).  No lowercasing anywhere: the
duplicate-member check compares the members' denormalized `email` column
case-sensitively (and a NULL email never matches), the pending-invitation
check is case-sensitive, and the email is stored as provided. -/
def inviteUserToOrganizationRoutes (db : Database) (orgId inviterUserId : String)
    (input : InviteUserInput) (now : Nat) (token freshInvitationId : String) :
    Except AppError OrganizationInvitation × Database :=
  -- Step 1: the role must belong to the organization
  match db.organization_roles.find?
      (fun r => r.org_id == orgId && r.org_role_id == input.org_role_id) with
  | none => (.error ⟨"Specified role not found for this organization.", 400⟩, db)
  | some _ =>
    let invitedEmail := input.invited_email
    -- Step 1.5: reject if this email is already an active member of the org
    if (db.organization_members.filter
        (fun m => m.org_id == orgId && memberEmailEq m invitedEmail)).length > 0 then
      (.error ⟨invitedEmail ++
               " is already an active member of this organization. No new invitation needed.",
               409⟩, db)
    else
      -- Step 2: reject if a pending invitation already exists
      if (db.organization_invitations.filter
          (fun i => i.org_id == orgId && i.invited_email == invitedEmail &&
                    i.status == "pending")).length > 0 then
        (.error ⟨"An active invitation already exists for " ++ invitedEmail ++
                 " for this organization.", 409⟩, db)
      else
        -- Steps 3-4: create the pending invitation, expiring 72h from now
        let expiresAt := now + INVITATION_EXPIRY_HOURS * 60 * 60 * 1000
        if db.organization_invitations.any
            (fun i => i.invitation_id == freshInvitationId || i.token == token) then
          (.error ⟨"Failed to create invitation.", 500⟩, db)
        else
          let invitation : OrganizationInvitation :=
            ⟨freshInvitationId, orgId, invitedEmail, inviterUserId,
             input.org_role_id, token, "pending", expiresAt⟩
          (.ok invitation,
           { db with organization_invitations := (db.organization_invitations ++ [invitation]) })

/-- `acceptInvitation` from the revision embedded in
`organization.routes.ts` (lines 1137-1284): identical to the service
revision except that the invited-email guard (line 1167) is a strict,
case-sensitive string comparison. -/
def acceptInvitationRoutes (db : Database) (token acceptingUserId acceptingUserEmail : String)
    (now : Nat) (freshMemberId : String) :
    Except AppError AcceptInvitationResult × Database :=
  match db.organization_invitations.find? (fun i => i.token == token) with
  | none => (.error ⟨"Invalid or expired invitation token.", 404⟩, db)
  | some invitation =>
    if invitation.status != "pending" then
      (.error ⟨"Invitation is already " ++ invitation.status ++ ".", 409⟩, db)
    else if invitation.expires_at < now then
      (.error ⟨"Invitation token has expired.", 410⟩,
       { db with organization_invitations :=
          (updateInvitationStatus db.organization_invitations invitation.invitation_id
            "expired") })
    else if !emailGuardRoutes invitation.invited_email acceptingUserEmail then
      (.error ⟨"Email mismatch: This invitation is intended for a different email address (case-sensitive).",
               403⟩, db)
    else
      let memberCount := (db.organization_members.filter
        (fun m => m.org_id == invitation.org_id && m.user_id == acceptingUserId)).length
      if memberCount > 0 then
        let db1 : Database := { db with organization_invitations :=
          (updateInvitationStatus db.organization_invitations invitation.invitation_id
            "accepted") }
        match db1.auth_users.find? (fun u => u.id == acceptingUserId) with
        | none => (.error ⟨"Failed to fetch user details for joining organization.", 500⟩, db1)
        | some acceptingUserAuthData =>
          let userDisplayName :=
            jsOrString acceptingUserAuthData.display_name
              (jsOrString (some ((acceptingUserEmail.splitOn "@").headD "")) "Member")
          let db2 : Database := { db1 with organization_members :=
            (db1.organization_members.map
              (fun m => if m.org_id == invitation.org_id && m.user_id == acceptingUserId then
                          { m with email := some acceptingUserEmail,
                                   display_name := some userDisplayName }
                        else m)) }
          (.ok ⟨invitation.org_id, invitation.role_to_assign_id⟩, db2)
      else
        if db.organization_members.any
            (fun m => m.id == freshMemberId ||
                      (m.org_id == invitation.org_id && m.user_id == acceptingUserId)) then
          (.error ⟨"User is already a member of this organization (concurrent join).", 409⟩,
           { db with organization_invitations :=
              (updateInvitationStatus db.organization_invitations invitation.invitation_id
                "accepted") })
        else
          let db1 : Database := { db with organization_members :=
            (db.organization_members ++
              [⟨freshMemberId, invitation.org_id, acceptingUserId,
                invitation.role_to_assign_id, none, none⟩]) }
          let db2 : Database := { db1 with organization_invitations :=
            (updateInvitationStatus db1.organization_invitations invitation.invitation_id
              "accepted") }
          (.ok ⟨invitation.org_id, invitation.role_to_assign_id⟩, db2)

/-- `declineInvitation` from the revision embedded in
`organization.routes.ts` (lines 1286-1334): identical to the service
revision except that the invited-email guard (line 1315) is a strict,
case-sensitive string comparison. -/
def declineInvitationRoutes (db : Database) (token decliningUserEmail : String) (now : Nat) :
    Except AppError Unit × Database :=
  match db.organization_invitations.find? (fun i => i.token == token) with
  | none => (.error ⟨"Invalid or expired invitation token.", 404⟩, db)
  | some invitation =>
    if invitation.status != "pending" then
      (.error ⟨"Invitation is already " ++ invitation.status ++ ". Cannot decline.", 409⟩, db)
    else if invitation.expires_at < now then
      (.error ⟨"Invitation token has expired. Cannot decline.", 410⟩,
       { db with organization_invitations :=
          (updateInvitationStatus db.organization_invitations invitation.invitation_id
            "expired") })
    else if !emailGuardRoutes invitation.invited_email decliningUserEmail then
      (.error ⟨"Email mismatch: This invitation is intended for a different email address (case-sensitive).",
               403⟩, db)
    else
      (.ok (),
       { db with organization_invitations :=
          (updateInvitationStatus db.organization_invitations invitation.invitation_id
            "declined") })

/-- `createOrganizationRole` from the revision embedded in
`organization.routes.ts` (lines 1379-1428).  No catalog validation and no
23505 special-casing (any role-insert failure is a 500); on a permission
insert fault it attempts compensation: it deletes the role it just created
and then surfaces the 500. -/
def createOrganizationRoleRoutes (db : Database) (orgId roleName : String)
    (permission_ids : List String) (newRoleId : String) (permInsertFault : Bool) :
    Except AppError CreatedOrgRole × Database :=
  if db.organization_roles.any (fun r => r.org_id == orgId && r.role_name == roleName) then
    (.error ⟨"Failed to create organization role.", 500⟩, db)
  else
    let db1 : Database := { db with organization_roles :=
      (db.organization_roles ++ [⟨newRoleId, orgId, roleName, false⟩]) }
    if permInsertFault then
      let db2 : Database := { db1 with organization_roles :=
        (db1.organization_roles.filter (fun r => r.org_role_id != newRoleId)) }
      (.error ⟨"Failed to assign permissions to role.", 500⟩, db2)
    else
      let db2 : Database := { db1 with organization_role_permissions :=
        (db1.organization_role_permissions ++
          permission_ids.map (fun p => OrganizationRolePermission.mk newRoleId p)) }
      (.ok ⟨newRoleId, roleName, permission_ids⟩, db2)

/-- `updateOrganizationRole` from the revision embedded in
`organization.routes.ts` (lines 1430-1500): rejects ANY update of a system
role with statusCode 403 (line 1449); otherwise sets the name and fully
replaces the permission set. -/
def updateOrganizationRoleRoutes (db : Database) (orgId roleId roleName : String)
    (permission_ids : List String) : Except AppError UpdatedOrgRole × Database :=
  match db.organization_roles.find?
      (fun r => r.org_id == orgId && r.org_role_id == roleId) with
  | none => (.error ⟨"Role not found or does not belong to this organization.", 404⟩, db)
  | some existingRole =>
    if existingRole.is_system_role then
      (.error ⟨"Cannot modify system roles.", 403⟩, db)
    else
      -- update the role name; 23505 on (org_id, role_name) -> 500 here
      if db.organization_roles.any
          (fun r => r.org_id == orgId && r.role_name == roleName && r.org_role_id != roleId) then
        (.error ⟨"Failed to update role.", 500⟩, db)
      else
        let roles1 : List OrganizationRole :=
          db.organization_roles.map (fun r =>
            if r.org_role_id == roleId then { r with role_name := roleName } else r)
        let db1 : Database := { db with organization_roles := roles1 }
        -- delete existing permissions, insert the new set
        let db2 : Database := { db1 with organization_role_permissions :=
          ((db1.organization_role_permissions.filter (fun p => p.org_role_id != roleId)) ++
            permission_ids.map (fun pid => OrganizationRolePermission.mk roleId pid)) }
        (.ok ⟨roleId, roleName, existingRole.is_system_role, permission_ids⟩, db2)

/-- `assignOrganizationMemberRole` from the revision embedded in
`organization.routes.ts` (lines 1546-1617).  This revision takes the
operator's user id and adds three Forbidden guards: no self-role-change
(lines 1547-1550), the new role must not be a system role (lines
1563-1565), and the target's current role must not be a system role
(lines 1583-1596). -/
def assignOrganizationMemberRoleRoutes (db : Database)
    (orgId memberUserId newRoleId operatorUserId : String) :
    Except AppError OrganizationMember × Database :=
  -- Prevent a user from changing their own role
  if memberUserId == operatorUserId then
    (.error ⟨"Users cannot change their own role.", 403⟩, db)
  else
    -- Step 1: the new role must exist in this org and must not be a system role
    match db.organization_roles.find?
        (fun r => r.org_id == orgId && r.org_role_id == newRoleId) with
    | none => (.error ⟨"Specified new role not found for this organization.", 400⟩, db)
    | some newRoleData =>
      if newRoleData.is_system_role then
        (.error ⟨"Cannot assign a system role.", 403⟩, db)
      else
        -- Step 2: the target must be a member whose current role is not a system role
        match db.organization_members.find?
            (fun m => m.org_id == orgId && m.user_id == memberUserId) with
        | none =>
            (.error ⟨"User " ++ memberUserId ++ " is not a member of this organization.",
                     404⟩, db)
        | some memberData =>
          let currentRoleIsSystem : Bool :=
            (db.organization_roles.find?
              (fun r => r.org_role_id == memberData.org_role_id)).any (·.is_system_role)
          if currentRoleIsSystem then
            (.error ⟨"Cannot change the role of a member who currently has a system role.",
                     403⟩, db)
          else
            -- Step 3: update the member's role
            let members1 : List OrganizationMember :=
              db.organization_members.map (fun m =>
                if m.org_id == orgId && m.user_id == memberUserId then
                  { m with org_role_id := newRoleId }
                else m)
            let db1 : Database := { db with organization_members := members1 }
            match members1.find? (fun m => m.org_id == orgId && m.user_id == memberUserId) with
            | some updatedMember => (.ok updatedMember, db1)
            | none =>
                (.error ⟨"Failed to update member role, member not found during update.",
                         404⟩, db1)

/-! ### Verified properties -/

instance {ε α : Type} [DecidableEq ε] [DecidableEq α] : DecidableEq (Except ε α)
  | .ok x, .ok y => decidable_of_iff (x = y) (by simp)
  | .error x, .error y => decidable_of_iff (x = y) (by simp)
  | .ok _, .error _ => .isFalse (by simp)
  | .error _, .ok _ => .isFalse (by simp)

/-- Claim C3: for every organization, member and role id, calling the
operator-aware `assignOrganizationMemberRole` (the routes revision) with
the operator equal to the target member always fails Forbidden (403),
regardless of whether the given role id is valid, and the database — in
particular the target's `org_role_id` — is unchanged. -/
theorem assignRole_self_target_always_forbidden (db : Database)
    (orgId memberUserId newRoleId operatorUserId : String)
    (h : memberUserId = operatorUserId) :
    assignOrganizationMemberRoleRoutes db orgId memberUserId newRoleId operatorUserId =
      (.error ⟨"Users cannot change their own role.", 403⟩, db) := by
  subst h
  simp [assignOrganizationMemberRoleRoutes]

/-- Concrete run of the self-target guard: the operator targets themselves
with a role id that does not even exist, and the call still fails 403 with
the store untouched. -/
theorem assignRole_self_target_always_forbidden_witness :
    assignOrganizationMemberRoleRoutes ⟨[], [], [], [], [], [], []⟩
        "org-1" "user-1" "no-such-role" "user-1" =
      (.error ⟨"Users cannot change their own role.", 403⟩, ⟨[], [], [], [], [], [], []⟩) :=
  assignRole_self_target_always_forbidden ⟨[], [], [], [], [], [], []⟩
    "org-1" "user-1" "no-such-role" "user-1" rfl

/-- Claim C4: for every organization, member, operator, and role of that
organization with `is_system_role = true`, the operator-aware
`assignOrganizationMemberRole` (the routes revision) invoked with that
role as the new role always fails Forbidden (403) and leaves the database
— in particular the member's `org_role_id` — unchanged. -/
theorem assignRole_system_role_always_forbidden (db : Database)
    (orgId memberUserId newRoleId operatorUserId : String) (s : OrganizationRole)
    (hfind : db.organization_roles.find?
        (fun r => r.org_id == orgId && r.org_role_id == newRoleId) = some s)
    (hsys : s.is_system_role = true) :
    ∃ e : AppError,
      assignOrganizationMemberRoleRoutes db orgId memberUserId newRoleId operatorUserId =
        (.error e, db) ∧ e.statusCode = 403 := by
  by_cases hself : (memberUserId == operatorUserId) = true
  · exact ⟨⟨"Users cannot change their own role.", 403⟩,
      by simp [assignOrganizationMemberRoleRoutes, hself], rfl⟩
  · refine ⟨⟨"Cannot assign a system role.", 403⟩, ?_, rfl⟩
    simp [assignOrganizationMemberRoleRoutes, hself, hfind, hsys]

/-- Concrete run of the system-role guard: assigning the Owner system role
to another member fails 403 and the store is untouched. -/
theorem assignRole_system_role_always_forbidden_witness :
    ∃ e : AppError,
      assignOrganizationMemberRoleRoutes
        ⟨[], [], [⟨"role-owner", "org-1", "Owner", true⟩], [],
         [⟨"mem-1", "org-1", "user-2", "role-owner", none, none⟩], [], []⟩
        "org-1" "user-2" "role-owner" "user-9" =
        (.error e,
         ⟨[], [], [⟨"role-owner", "org-1", "Owner", true⟩], [],
          [⟨"mem-1", "org-1", "user-2", "role-owner", none, none⟩], [], []⟩) ∧
      e.statusCode = 403 :=
  assignRole_system_role_always_forbidden _ "org-1" "user-2" "role-owner" "user-9"
    ⟨"role-owner", "org-1", "Owner", true⟩ (by decide) rfl

/-- Claim C8: default-deny for non-members.  For every user id with no
membership row in the organization, `getUserPermissionsForOrganization`
returns `ok []` (the empty permission set, not an error), so every
permission resolves to not-held; and the `checkPermission` middleware
denies every permission for that user with the same Forbidden (403) status
as an ordinary not-held permission, never an internal error. -/
theorem nonmember_permissions_default_deny (db : Database) (userId orgId : String)
    (h : db.organization_members.find?
        (fun m => m.org_id == orgId && m.user_id == userId) = none) :
    getUserPermissionsForOrganization db userId orgId = .ok [] ∧
    (∀ p : String, checkPermission db userId orgId p =
      .deny ⟨"User is not a member of this organization.", 403⟩) := by
  constructor
  · simp [getUserPermissionsForOrganization, h]
  · intro p
    simp [checkPermission, h]

/-- Concrete run of the default-deny posture: a user with no membership row
in an organization that does have members resolves to the empty permission
set without an error, and the middleware denies a catalog permission. -/
theorem nonmember_permissions_default_deny_witness :
    getUserPermissionsForOrganization
        ⟨["org:read"], [], [⟨"role-1", "org-1", "Owner", true⟩],
         [⟨"role-1", "org:read"⟩], [⟨"mem-1", "org-1", "user-1", "role-1", none, none⟩],
         [], []⟩ "user-stranger" "org-1" = .ok [] ∧
    (∀ p : String, checkPermission
        ⟨["org:read"], [], [⟨"role-1", "org-1", "Owner", true⟩],
         [⟨"role-1", "org:read"⟩], [⟨"mem-1", "org-1", "user-1", "role-1", none, none⟩],
         [], []⟩ "user-stranger" "org-1" p =
      .deny ⟨"User is not a member of this organization.", 403⟩) :=
  nonmember_permissions_default_deny _ "user-stranger" "org-1" (by decide)

/-- Claim C10, counterexample: the two revisions of the invited-email guard
are NOT extensionally equivalent.  With stored invited_email
"Bob@example.com" and caller email "bob@example.com", the service-revision
guard passes (and the whole `acceptInvitation` succeeds) while the
routes-revision guard fails the caller (the whole `acceptInvitationRoutes`
fails Forbidden 403). -/
theorem email_guard_revisions_disagree :
    emailGuardService "Bob@example.com" "bob@example.com" = true ∧
    emailGuardRoutes "Bob@example.com" "bob@example.com" = false ∧
    (acceptInvitation
      ⟨[], [], [], [], [],
       [⟨"inv-1", "org-1", "Bob@example.com", "user-0", "role-1", "tok-1", "pending", 1000⟩],
       []⟩ "tok-1" "user-9" "bob@example.com" 500 "mem-1").1 = .ok ⟨"org-1", "role-1"⟩ ∧
    (acceptInvitationRoutes
      ⟨[], [], [], [], [],
       [⟨"inv-1", "org-1", "Bob@example.com", "user-0", "role-1", "tok-1", "pending", 1000⟩],
       []⟩ "tok-1" "user-9" "bob@example.com" 500 "mem-1").1 =
      .error ⟨"Email mismatch: This invitation is intended for a different email address (case-sensitive).",
              403⟩ := by
  decide

/-- Claim C10, amended: the strict-equality guard of the routes revision
refines the lowercasing guard of the service revision — every (stored
invited_email, caller email) pair the routes revision passes, the service
revision passes as well; the two differ exactly on pairs that are equal
only up to letter case. -/
theorem email_guard_routes_refines_service (invitedEmail callerEmail : String)
    (h : emailGuardRoutes invitedEmail callerEmail = true) :
    emailGuardService invitedEmail callerEmail = true := by
  have : invitedEmail = callerEmail := by
    simpa [emailGuardRoutes] using h
  subst this
  simp [emailGuardService]

/-- Concrete agreement point of the two guards: on an exactly-matching
email both revisions pass the caller. -/
theorem email_guard_routes_refines_service_witness :
    emailGuardRoutes "bob@example.com" "bob@example.com" = true ∧
    emailGuardService "bob@example.com" "bob@example.com" = true :=
  ⟨by decide, email_guard_routes_refines_service "bob@example.com" "bob@example.com" (by decide)⟩

/-- Claim C7, counterexample: renaming a system role through the service
revision of `updateOrganizationRole` — the revision the Express route
actually calls — fails with statusCode 400, not Forbidden 403 as the
claim states (the route's own OpenAPI comment documents 400 for "changing
system role name"). -/
theorem update_system_role_rename_not_403 :
    updateOrganizationRole
        ⟨[], [], [⟨"role-owner", "org-1", "Owner", true⟩], [], [], [], []⟩
        "org-1" "role-owner" ⟨some "Boss", none, none⟩ =
      (.error ⟨"System role names cannot be changed.", 400⟩,
       ⟨[], [], [⟨"role-owner", "org-1", "Owner", true⟩], [], [], [], []⟩) ∧
    (∀ e : AppError,
      (updateOrganizationRole
          ⟨[], [], [⟨"role-owner", "org-1", "Owner", true⟩], [], [], [], []⟩
          "org-1" "role-owner" ⟨some "Boss", none, none⟩).1 = .error e →
        e.statusCode ≠ 403) := by
  constructor
  · decide
  · intro e he
    have : e = ⟨"System role names cannot be changed.", 400⟩ := by
      have h : (updateOrganizationRole
          ⟨[], [], [⟨"role-owner", "org-1", "Owner", true⟩], [], [], [], []⟩
          "org-1" "role-owner" ⟨some "Boss", none, none⟩).1 =
          .error ⟨"System role names cannot be changed.", 400⟩ := by decide
      rw [h] at he
      exact (Except.error.injEq _ _).mp he.symm
    subst this
    decide

/-- Claim C7, amended: a name change on a system role is always rejected
with the name left unchanged, but the two revisions disagree on the
status: the service revision (wired to the route) rejects it with
statusCode 400, while the routes-embedded revision rejects any update of
a system role with Forbidden 403.  In both cases the database is
untouched. -/
theorem update_system_role_rename_rejected (db : Database) (orgId orgRoleId : String)
    (input : UpdateOrgRoleInput) (r : OrganizationRole) (n : String)
    (hfind : db.organization_roles.find?
        (fun ro => ro.org_id == orgId && ro.org_role_id == orgRoleId) = some r)
    (hsys : r.is_system_role = true)
    (hn : input.role_name = some n) (hne : n ≠ "") (hdiff : n ≠ r.role_name) :
    updateOrganizationRole db orgId orgRoleId input =
      (.error ⟨"System role names cannot be changed.", 400⟩, db) ∧
    (∀ roleName pids, updateOrganizationRoleRoutes db orgId orgRoleId roleName pids =
      (.error ⟨"Cannot modify system roles.", 403⟩, db)) := by
  constructor
  · simp [updateOrganizationRole, hfind, hsys, hn, hne, hdiff]
  · intro roleName pids
    simp [updateOrganizationRoleRoutes, hfind, hsys]

/-- Concrete run of the amended C7 statement on an Owner system role. -/
theorem update_system_role_rename_rejected_witness :
    updateOrganizationRole
        ⟨[], [], [⟨"role-owner", "org-9", "Owner", true⟩], [], [], [], []⟩
        "org-9" "role-owner" ⟨some "Boss", none, none⟩ =
      (.error ⟨"System role names cannot be changed.", 400⟩,
       ⟨[], [], [⟨"role-owner", "org-9", "Owner", true⟩], [], [], [], []⟩) ∧
    (∀ roleName pids, updateOrganizationRoleRoutes
        ⟨[], [], [⟨"role-owner", "org-9", "Owner", true⟩], [], [], [], []⟩
        "org-9" "role-owner" roleName pids =
      (.error ⟨"Cannot modify system roles.", 403⟩,
       ⟨[], [], [⟨"role-owner", "org-9", "Owner", true⟩], [], [], [], []⟩)) :=
  update_system_role_rename_rejected _ "org-9" "role-owner" ⟨some "Boss", none, none⟩
    ⟨"role-owner", "org-9", "Owner", true⟩ "Boss" (by decide) rfl rfl
    (by decide) (by decide)

/-- Claim C2: evaluation at the failing input.  When the role row insert of
`createOrganizationRole` succeeds and the subsequent permission insert
fails, the service revision (the one the route calls) surfaces a 500 but
leaves the newly created role in the organization's role set — the
operation is NOT all-or-nothing.  The routes-embedded revision of the same
function does apply the compensating delete and leaves the role set
unchanged. -/
theorem createRole_perm_fault_leaves_role_behind :
    (createOrganizationRole ⟨["org:read"], [], [], [], [], [], []⟩
        "org-1" ⟨"Recruiter", none, ["org:read"]⟩ "role-9" true).1 =
      .error ⟨"Role created, but failed to assign permissions.", 500⟩ ∧
    (createOrganizationRole ⟨["org:read"], [], [], [], [], [], []⟩
        "org-1" ⟨"Recruiter", none, ["org:read"]⟩ "role-9" true).2.organization_roles =
      [⟨"role-9", "org-1", "Recruiter", false⟩] ∧
    (createOrganizationRoleRoutes ⟨["org:read"], [], [], [], [], [], []⟩
        "org-1" "Recruiter" ["org:read"] "role-9" true).1 =
      .error ⟨"Failed to assign permissions to role.", 500⟩ ∧
    (createOrganizationRoleRoutes ⟨["org:read"], [], [], [], [], [], []⟩
        "org-1" "Recruiter" ["org:read"] "role-9" true).2.organization_roles = [] := by
  decide

/-- When the accepting user is not already a member, `acceptInvitation`
either leaves the member table unchanged (an error branch) or appends
exactly the row `{org_id, user_id, org_role_id}` with NULL email and
display_name. -/
theorem acceptInvitation_members_of_not_member (db : Database)
    (token acceptingUserId acceptingUserEmail : String) (now : Nat) (freshMemberId : String)
    (inv : OrganizationInvitation)
    (htok : db.organization_invitations.find? (fun i => i.token == token) = some inv)
    (hnomem : ∀ m ∈ db.organization_members,
      ¬(m.org_id = inv.org_id ∧ m.user_id = acceptingUserId)) :
    (acceptInvitation db token acceptingUserId acceptingUserEmail now
        freshMemberId).2.organization_members = db.organization_members ∨
    (acceptInvitation db token acceptingUserId acceptingUserEmail now
        freshMemberId).2.organization_members =
      db.organization_members ++
        [⟨freshMemberId, inv.org_id, acceptingUserId, inv.role_to_assign_id, none, none⟩] := by
  have hfilter : db.organization_members.filter
      (fun m => m.org_id == inv.org_id && m.user_id == acceptingUserId) = [] := by
    rw [List.filter_eq_nil_iff]
    intro m hm
    have := hnomem m hm
    simp only [Bool.and_eq_true, beq_iff_eq]
    tauto
  simp only [acceptInvitation, htok]
  split
  · exact .inl rfl
  · split
    · exact .inl rfl
    · split
      · exact .inl rfl
      · rw [hfilter]
        simp only [List.length_nil, gt_iff_lt, Nat.lt_irrefl, if_false]
        split
        · exact .inl rfl
        · exact .inr rfl

/-- Claim C9: whenever `acceptInvitation` creates a new membership row (the
accepting user was not already a member of the invitation's organization),
every member row of the post-state either existed before or is the
inserted row, which sets only `org_id`, `user_id` and `org_role_id` and
leaves the denormalized `email`/`display_name` snapshots NULL — so the
membership-by-email equality check that the routes-revision
`inviteUserToOrganization` performs for duplicate-member detection
(`memberEmailEq`) never matches such a member, for any invited email. -/
theorem accept_inserted_member_invisible_to_email_check (db : Database)
    (token acceptingUserId acceptingUserEmail : String) (now : Nat) (freshMemberId : String)
    (inv : OrganizationInvitation)
    (htok : db.organization_invitations.find? (fun i => i.token == token) = some inv)
    (hnomem : ∀ m ∈ db.organization_members,
      ¬(m.org_id = inv.org_id ∧ m.user_id = acceptingUserId)) :
    ∀ m ∈ (acceptInvitation db token acceptingUserId acceptingUserEmail now
        freshMemberId).2.organization_members,
      m ∈ db.organization_members ∨
      (m.email = none ∧ m.display_name = none ∧
        ∀ e : String, memberEmailEq m e = false) := by
  intro m hm
  rcases acceptInvitation_members_of_not_member db token acceptingUserId acceptingUserEmail
      now freshMemberId inv htok hnomem with h | h
  · rw [h] at hm
    exact .inl hm
  · rw [h] at hm
    rcases List.mem_append.mp hm with h2 | h2
    · exact .inl h2
    · have hmEq : m = ⟨freshMemberId, inv.org_id, acceptingUserId,
          inv.role_to_assign_id, none, none⟩ := by
        simpa using h2
      subst hmEq
      exact .inr ⟨rfl, rfl, fun e => rfl⟩

/-- Concrete run of claim C9: a fresh user accepts a pending invitation
into an organization they are not a member of; every resulting member row
is either pre-existing or carries NULL email/display_name and is invisible
to the email-equality duplicate check. -/
theorem accept_inserted_member_invisible_to_email_check_witness :
    (⟨"mem-1", "org-1", "user-9", "role-1", none, none⟩ : OrganizationMember) ∈
        ([] : List OrganizationMember) ∨
    ((⟨"mem-1", "org-1", "user-9", "role-1", none, none⟩ : OrganizationMember).email = none ∧
     (⟨"mem-1", "org-1", "user-9", "role-1", none, none⟩ :
        OrganizationMember).display_name = none ∧
     ∀ e : String,
       memberEmailEq ⟨"mem-1", "org-1", "user-9", "role-1", none, none⟩ e = false) :=
  accept_inserted_member_invisible_to_email_check
    ⟨[], [], [], [], [],
     [⟨"inv-1", "org-1", "bob@example.com", "user-0", "role-1", "tok-1", "pending", 1000⟩],
     []⟩ "tok-1" "user-9" "bob@example.com" 500 "mem-1"
    ⟨"inv-1", "org-1", "bob@example.com", "user-0", "role-1", "tok-1", "pending", 1000⟩
    (by decide) (by simp)
    ⟨"mem-1", "org-1", "user-9", "role-1", none, none⟩ (by decide)

/-- Claim C1: for every organization created by `createOrganization` (with
fresh generated ids and an unused handle), the call succeeds and exactly
two roles exist for the new organization, both with
`is_system_role = true`, named Owner and Member; the Owner role is granted
exactly the `app_permissions` catalog at creation time (in order), and the
Member role is granted no permissions. -/
theorem createOrganization_bootstrap (db : Database)
    (input : CreateOrganizationInput) (creator : Creator)
    (newOrgId ownerRoleId memberRoleId newMemberRowId : String)
    (hhandle : ∀ o ∈ db.organizations, o.org_handle ≠ input.org_handle)
    (hfreshOrg : ∀ r ∈ db.organization_roles, r.org_id ≠ newOrgId)
    (hfreshPerm : ∀ p ∈ db.organization_role_permissions,
      p.org_role_id ≠ ownerRoleId ∧ p.org_role_id ≠ memberRoleId)
    (hfreshMem : ∀ m ∈ db.organization_members, m.org_id ≠ newOrgId)
    (hdistinct : ownerRoleId ≠ memberRoleId) :
    (createOrganization db input creator newOrgId ownerRoleId memberRoleId
        newMemberRowId).1 = .ok ⟨newOrgId, "Owner", ownerRoleId⟩ ∧
    (createOrganization db input creator newOrgId ownerRoleId memberRoleId
        newMemberRowId).2.organization_roles.filter (fun r => r.org_id == newOrgId) =
      [⟨ownerRoleId, newOrgId, "Owner", true⟩, ⟨memberRoleId, newOrgId, "Member", true⟩] ∧
    ((createOrganization db input creator newOrgId ownerRoleId memberRoleId
        newMemberRowId).2.organization_role_permissions.filter
        (fun p => p.org_role_id == ownerRoleId)).map (·.permission_id) =
      db.app_permissions ∧
    (createOrganization db input creator newOrgId ownerRoleId memberRoleId
        newMemberRowId).2.organization_role_permissions.filter
        (fun p => p.org_role_id == memberRoleId) = [] := by
  have c1 : db.organizations.any (fun o => o.org_handle == input.org_handle) = false := by
    rw [List.any_eq_false]
    intro o ho
    simpa using hhandle o ho
  have c2 : db.organization_roles.any
      (fun r => r.org_id == newOrgId && r.role_name == "Owner") = false := by
    rw [List.any_eq_false]
    intro r hr
    simp [hfreshOrg r hr]
  have c3 : (db.organization_roles ++ [(⟨ownerRoleId, newOrgId, "Owner", true⟩ :
      OrganizationRole)]).any
      (fun r => r.org_id == newOrgId && r.role_name == "Member") = false := by
    rw [List.any_eq_false]
    intro r hr
    rcases List.mem_append.mp hr with h | h
    · simp [hfreshOrg r h]
    · simp at h
      subst h
      simp
  have c4 : db.organization_members.any
      (fun m => m.org_id == newOrgId && m.user_id == creator.id) = false := by
    rw [List.any_eq_false]
    intro m hm
    simp [hfreshMem m hm]
  have fRoles : db.organization_roles.filter (fun r => r.org_id == newOrgId) = [] := by
    rw [List.filter_eq_nil_iff]
    intro r hr
    simp [hfreshOrg r hr]
  have fPermOwner : db.organization_role_permissions.filter
      (fun p => p.org_role_id == ownerRoleId) = [] := by
    rw [List.filter_eq_nil_iff]
    intro p hp
    simp [(hfreshPerm p hp).1]
  have fPermMember : db.organization_role_permissions.filter
      (fun p => p.org_role_id == memberRoleId) = [] := by
    rw [List.filter_eq_nil_iff]
    intro p hp
    simp [(hfreshPerm p hp).2]
  have fNewOwner : (db.app_permissions.map
      (fun p => OrganizationRolePermission.mk ownerRoleId p)).filter
      (fun p => p.org_role_id == ownerRoleId) =
      db.app_permissions.map (fun p => OrganizationRolePermission.mk ownerRoleId p) := by
    rw [List.filter_eq_self]
    intro p hp
    rcases List.mem_map.mp hp with ⟨a, _, rfl⟩
    simp
  have fNewMember : (db.app_permissions.map
      (fun p => OrganizationRolePermission.mk ownerRoleId p)).filter
      (fun p => p.org_role_id == memberRoleId) = [] := by
    rw [List.filter_eq_nil_iff]
    intro p hp
    rcases List.mem_map.mp hp with ⟨a, _, rfl⟩
    simp [hdistinct]
  have mapBack : (db.app_permissions.map
      (fun p => OrganizationRolePermission.mk ownerRoleId p)).map (·.permission_id) =
      db.app_permissions := by
    rw [List.map_map]
    exact List.map_id' _
  by_cases happ : (db.app_permissions.map
      (fun p => OrganizationRolePermission.mk ownerRoleId p)).length > 0
  · refine ⟨?_, ?_, ?_, ?_⟩ <;>
      simp only [createOrganization, c1, c2, c3, c4, happ, Bool.false_eq_true, if_false,
        if_true, List.filter_append, fRoles, fPermOwner, fPermMember, fNewOwner, fNewMember,
        List.nil_append, List.append_nil] <;>
      simp [List.filter, hdistinct, Ne.symm hdistinct, mapBack]
  · have happNil : db.app_permissions = [] := by
      have h0 : (db.app_permissions.map
          (fun p => OrganizationRolePermission.mk ownerRoleId p)).length = 0 :=
        Nat.eq_zero_of_not_pos happ
      simpa using h0
    refine ⟨?_, ?_, ?_, ?_⟩ <;>
      simp only [createOrganization, c1, c2, c3, c4, happNil, List.map_nil, List.length_nil,
        gt_iff_lt, Nat.lt_irrefl, if_false, Bool.false_eq_true, List.filter_append, fRoles,
        fPermOwner, fPermMember, List.nil_append, List.append_nil] <;>
      simp [List.filter, hdistinct, Ne.symm hdistinct]

/-- Concrete run of claim C1 on an empty store with a two-permission
catalog: the Owner role receives exactly the catalog, the Member role
nothing. -/
theorem createOrganization_bootstrap_witness :
    (createOrganization ⟨["org:read", "roles:assign"], [], [], [], [], [], []⟩
        ⟨"Acme", "acme", none, none, none, none, none⟩
        ⟨"user-1", some "ann@acme.io", some "Ann"⟩
        "org-1" "role-owner" "role-member" "mem-1").1 =
      .ok ⟨"org-1", "Owner", "role-owner"⟩ ∧
    (createOrganization ⟨["org:read", "roles:assign"], [], [], [], [], [], []⟩
        ⟨"Acme", "acme", none, none, none, none, none⟩
        ⟨"user-1", some "ann@acme.io", some "Ann"⟩
        "org-1" "role-owner" "role-member" "mem-1").2.organization_roles.filter
        (fun r => r.org_id == "org-1") =
      [⟨"role-owner", "org-1", "Owner", true⟩, ⟨"role-member", "org-1", "Member", true⟩] ∧
    ((createOrganization ⟨["org:read", "roles:assign"], [], [], [], [], [], []⟩
        ⟨"Acme", "acme", none, none, none, none, none⟩
        ⟨"user-1", some "ann@acme.io", some "Ann"⟩
        "org-1" "role-owner" "role-member" "mem-1").2.organization_role_permissions.filter
        (fun p => p.org_role_id == "role-owner")).map (·.permission_id) =
      ["org:read", "roles:assign"] ∧
    (createOrganization ⟨["org:read", "roles:assign"], [], [], [], [], [], []⟩
        ⟨"Acme", "acme", none, none, none, none, none⟩
        ⟨"user-1", some "ann@acme.io", some "Ann"⟩
        "org-1" "role-owner" "role-member" "mem-1").2.organization_role_permissions.filter
        (fun p => p.org_role_id == "role-member") = [] :=
  createOrganization_bootstrap ⟨["org:read", "roles:assign"], [], [], [], [], [], []⟩
    ⟨"Acme", "acme", none, none, none, none, none⟩
    ⟨"user-1", some "ann@acme.io", some "Ann"⟩
    "org-1" "role-owner" "role-member" "mem-1"
    (by simp) (by simp) (by simp) (by simp) (by decide)

/-- A status update keyed by `invitation_id` does not change which row a
token lookup finds, beyond the status rewrite itself. -/
theorem updateInvitationStatus_find?_token (l : List OrganizationInvitation)
    (ι₀ st token : String) :
    (updateInvitationStatus l ι₀ st).find? (fun i => i.token == token) =
      (l.find? (fun i => i.token == token)).map
        (fun i => if i.invitation_id == ι₀ then { i with status := st } else i) := by
  have hpf : ((fun i : OrganizationInvitation => i.token == token) ∘
      (fun i => if i.invitation_id == ι₀ then { i with status := st } else i)) =
      (fun i : OrganizationInvitation => i.token == token) := by
    funext i
    by_cases h : (i.invitation_id == ι₀) = true <;> simp [h, Function.comp]
  simp only [updateInvitationStatus, List.find?_map, hpf]

/-- A status update keyed by `invitation_id` does not change which row an
id lookup finds, beyond the status rewrite itself. -/
theorem updateInvitationStatus_find?_id (l : List OrganizationInvitation)
    (ι₀ st ι : String) :
    (updateInvitationStatus l ι₀ st).find? (fun i => i.invitation_id == ι) =
      (l.find? (fun i => i.invitation_id == ι)).map
        (fun i => if i.invitation_id == ι₀ then { i with status := st } else i) := by
  have hpf : ((fun i : OrganizationInvitation => i.invitation_id == ι) ∘
      (fun i => if i.invitation_id == ι₀ then { i with status := st } else i)) =
      (fun i : OrganizationInvitation => i.invitation_id == ι) := by
    funext i
    by_cases h : (i.invitation_id == ι₀) = true <;> simp [h, Function.comp]
  simp only [updateInvitationStatus, List.find?_map, hpf]

/-- Claim C6, lazy expiry: for every invitation with status `pending` and
`expires_at` earlier than the current time, the first `acceptInvitation`
or `declineInvitation` call on its token sets its status to `expired` and
fails Gone (410); on the resulting store the token resolves to the expired
row, and every subsequent accept or decline call on the same token — at
any later time, by any caller — fails Conflict (409), not Gone, leaving
the store unchanged. -/
theorem invitation_lazy_expiry (db : Database) (token : String)
    (inv : OrganizationInvitation)
    (htok : db.organization_invitations.find? (fun i => i.token == token) = some inv)
    (hpend : inv.status = "pending") (now : Nat) (hexp : inv.expires_at < now) :
    (∀ u e fid, acceptInvitation db token u e now fid =
      (.error ⟨"Invitation token has expired.", 410⟩,
       { db with organization_invitations :=
          updateInvitationStatus db.organization_invitations inv.invitation_id "expired" })) ∧
    (∀ e, declineInvitation db token e now =
      (.error ⟨"Invitation token has expired. Cannot decline.", 410⟩,
       { db with organization_invitations :=
          updateInvitationStatus db.organization_invitations inv.invitation_id "expired" })) ∧
    ((updateInvitationStatus db.organization_invitations inv.invitation_id "expired").find?
      (fun i => i.token == token) = some { inv with status := "expired" }) ∧
    (∀ u2 e2 now2 fid2, acceptInvitation
        { db with organization_invitations :=
          updateInvitationStatus db.organization_invitations inv.invitation_id "expired" }
        token u2 e2 now2 fid2 =
      (.error ⟨"Invitation is already expired.", 409⟩,
       { db with organization_invitations :=
          updateInvitationStatus db.organization_invitations inv.invitation_id "expired" })) ∧
    (∀ e2 now2, declineInvitation
        { db with organization_invitations :=
          updateInvitationStatus db.organization_invitations inv.invitation_id "expired" }
        token e2 now2 =
      (.error ⟨"Invitation is already expired. Cannot decline.", 409⟩,
       { db with organization_invitations :=
          updateInvitationStatus db.organization_invitations inv.invitation_id "expired" })) := by
  have hupd : (updateInvitationStatus db.organization_invitations inv.invitation_id
      "expired").find? (fun i => i.token == token) =
      some { inv with status := "expired" } := by
    rw [updateInvitationStatus_find?_token, htok]
    simp
  have hmsgA : ("Invitation is already " ++ "expired" ++ "." : String) =
      "Invitation is already expired." := rfl
  have hmsgD : ("Invitation is already " ++ "expired" ++ ". Cannot decline." : String) =
      "Invitation is already expired. Cannot decline." := rfl
  refine ⟨?_, ?_, hupd, ?_, ?_⟩
  · intro u e fid
    simp [acceptInvitation, htok, hpend, hexp]
  · intro e
    simp [declineInvitation, htok, hpend, hexp]
  · intro u2 e2 now2 fid2
    simp [acceptInvitation, hupd, hmsgA]
  · intro e2 now2
    simp [declineInvitation, hupd, hmsgD]

/-- Concrete run of claim C6: a pending invitation that expired at time 100
is touched at time 200 — the call fails 410 and flips the status to
`expired`; all later accepts and declines on the token fail 409. -/
theorem invitation_lazy_expiry_witness :
    (∀ u e fid, acceptInvitation
        ⟨[], [], [], [], [],
         [⟨"inv-1", "org-1", "bob@example.com", "user-0", "role-1", "tok-1", "pending", 100⟩],
         []⟩ "tok-1" u e 200 fid =
      (.error ⟨"Invitation token has expired.", 410⟩,
       { (⟨[], [], [], [], [],
          [⟨"inv-1", "org-1", "bob@example.com", "user-0", "role-1", "tok-1", "pending", 100⟩],
          []⟩ : Database) with organization_invitations :=
          (updateInvitationStatus
            [⟨"inv-1", "org-1", "bob@example.com", "user-0", "role-1", "tok-1", "pending", 100⟩]
            "inv-1" "expired") })) ∧
    (∀ e, declineInvitation
        ⟨[], [], [], [], [],
         [⟨"inv-1", "org-1", "bob@example.com", "user-0", "role-1", "tok-1", "pending", 100⟩],
         []⟩ "tok-1" e 200 =
      (.error ⟨"Invitation token has expired. Cannot decline.", 410⟩,
       { (⟨[], [], [], [], [],
          [⟨"inv-1", "org-1", "bob@example.com", "user-0", "role-1", "tok-1", "pending", 100⟩],
          []⟩ : Database) with organization_invitations :=
          (updateInvitationStatus
            [⟨"inv-1", "org-1", "bob@example.com", "user-0", "role-1", "tok-1", "pending", 100⟩]
            "inv-1" "expired") })) ∧
    ((updateInvitationStatus
        [⟨"inv-1", "org-1", "bob@example.com", "user-0", "role-1", "tok-1", "pending", 100⟩]
        "inv-1" "expired").find? (fun i => i.token == "tok-1") =
      some ⟨"inv-1", "org-1", "bob@example.com", "user-0", "role-1", "tok-1", "expired", 100⟩) ∧
    (∀ u2 e2 now2 fid2, acceptInvitation
        { (⟨[], [], [], [], [],
           [⟨"inv-1", "org-1", "bob@example.com", "user-0", "role-1", "tok-1", "pending", 100⟩],
           []⟩ : Database) with organization_invitations :=
           (updateInvitationStatus
             [⟨"inv-1", "org-1", "bob@example.com", "user-0", "role-1", "tok-1", "pending", 100⟩]
             "inv-1" "expired") } "tok-1" u2 e2 now2 fid2 =
      (.error ⟨"Invitation is already expired.", 409⟩,
       { (⟨[], [], [], [], [],
          [⟨"inv-1", "org-1", "bob@example.com", "user-0", "role-1", "tok-1", "pending", 100⟩],
          []⟩ : Database) with organization_invitations :=
          (updateInvitationStatus
            [⟨"inv-1", "org-1", "bob@example.com", "user-0", "role-1", "tok-1", "pending", 100⟩]
            "inv-1" "expired") })) ∧
    (∀ e2 now2, declineInvitation
        { (⟨[], [], [], [], [],
           [⟨"inv-1", "org-1", "bob@example.com", "user-0", "role-1", "tok-1", "pending", 100⟩],
           []⟩ : Database) with organization_invitations :=
           (updateInvitationStatus
             [⟨"inv-1", "org-1", "bob@example.com", "user-0", "role-1", "tok-1", "pending", 100⟩]
             "inv-1" "expired") } "tok-1" e2 now2 =
      (.error ⟨"Invitation is already expired. Cannot decline.", 409⟩,
       { (⟨[], [], [], [], [],
          [⟨"inv-1", "org-1", "bob@example.com", "user-0", "role-1", "tok-1", "pending", 100⟩],
          []⟩ : Database) with organization_invitations :=
          (updateInvitationStatus
            [⟨"inv-1", "org-1", "bob@example.com", "user-0", "role-1", "tok-1", "pending", 100⟩]
            "inv-1" "expired") })) :=
  invitation_lazy_expiry
    ⟨[], [], [], [], [],
     [⟨"inv-1", "org-1", "bob@example.com", "user-0", "role-1", "tok-1", "pending", 100⟩], []⟩
    "tok-1"
    ⟨"inv-1", "org-1", "bob@example.com", "user-0", "role-1", "tok-1", "pending", 100⟩
    (by decide) rfl 200 (by decide)

/-! ### The invitation state machine over arbitrary operation sequences -/

/-- A public invitation-lifecycle operation together with its
request-scoped inputs (current time, generated token, fresh row ids).
Both service revisions are included. -/
inductive InvitationOp where
  | issue (orgId inviterUserId : String) (input : InviteUserInput)
      (now : Nat) (token freshInvitationId : String)
  | issueRoutes (orgId inviterUserId : String) (input : InviteUserInput)
      (now : Nat) (token freshInvitationId : String)
  | accept (token userId userEmail : String) (now : Nat) (freshMemberId : String)
  | acceptRoutes (token userId userEmail : String) (now : Nat) (freshMemberId : String)
  | decline (token userEmail : String) (now : Nat)
  | declineRoutes (token userEmail : String) (now : Nat)

/-- Run one public operation against the store, keeping the post-state
(whether or not the call reported an error). -/
def applyInvitationOp (db : Database) : InvitationOp → Database
  | .issue orgId inviter input now token fid =>
      (inviteUserToOrganization db orgId inviter input now token fid).2
  | .issueRoutes orgId inviter input now token fid =>
      (inviteUserToOrganizationRoutes db orgId inviter input now token fid).2
  | .accept token userId userEmail now fid =>
      (acceptInvitation db token userId userEmail now fid).2
  | .acceptRoutes token userId userEmail now fid =>
      (acceptInvitationRoutes db token userId userEmail now fid).2
  | .decline token userEmail now => (declineInvitation db token userEmail now).2
  | .declineRoutes token userEmail now => (declineInvitationRoutes db token userEmail now).2

/-- The transitions the invitation state machine allows: a status either
stays put, or moves from "pending" to exactly one of "accepted",
"declined", "expired". -/
def StatusMove (s s' : String) : Prop :=
  s' = s ∨ (s = "pending" ∧ (s' = "accepted" ∨ s' = "declined" ∨ s' = "expired"))

/-- The `invitation_id` primary key of `organization_invitations`: ids are
pairwise distinct. -/
def InvitationIdsNodup (db : Database) : Prop :=
  (db.organization_invitations.map (·.invitation_id)).Nodup

theorem statusMove_trans {s t u : String} (h1 : StatusMove s t) (h2 : StatusMove t u) :
    StatusMove s u := by
  rcases h1 with rfl | ⟨hs, ht⟩
  · exact h2
  · rcases h2 with rfl | ⟨ht', _⟩
    · exact .inr ⟨hs, ht⟩
    · exfalso
      rcases ht with h | h | h <;> rw [h] at ht' <;> exact absurd ht' (by decide)

/-- How one public operation may change the invitations table: not at all;
an id-keyed status update of a pending row to a terminal status; or the
append of a fresh pending row. -/
inductive InvitationsStep (l l' : List OrganizationInvitation) : Prop where
  | unchanged : l' = l → InvitationsStep l l'
  | updated (inv : OrganizationInvitation) (st : String) :
      inv ∈ l → inv.status = "pending" →
      (st = "accepted" ∨ st = "declined" ∨ st = "expired") →
      l' = updateInvitationStatus l inv.invitation_id st → InvitationsStep l l'
  | issued (inv : OrganizationInvitation) :
      inv.status = "pending" → (∀ i ∈ l, i.invitation_id ≠ inv.invitation_id) →
      l' = l ++ [inv] → InvitationsStep l l'

/-- Every public operation changes the invitations table only in one of
the three `InvitationsStep` shapes. -/
theorem invitationsStep_of_op (db : Database) (op : InvitationOp) :
    InvitationsStep db.organization_invitations
      (applyInvitationOp db op).organization_invitations := by
  cases op with
  | issue orgId inviter input now token fid =>
    simp only [applyInvitationOp, inviteUserToOrganization]
    split
    · exact .unchanged rfl
    · split
      · exact .unchanged rfl
      · split
        · exact .unchanged rfl
        · split
          · exact .unchanged rfl
          · next h =>
            refine .issued _ rfl ?_ rfl
            intro i hi
            have := List.any_eq_false.mp (Bool.eq_false_iff.mpr (fun hc => h hc)) i hi
            simp only [Bool.or_eq_true, beq_iff_eq, not_or] at this
            exact fun hc => this.1 hc
  | issueRoutes orgId inviter input now token fid =>
    simp only [applyInvitationOp, inviteUserToOrganizationRoutes]
    split
    · exact .unchanged rfl
    · split
      · exact .unchanged rfl
      · split
        · exact .unchanged rfl
        · split
          · exact .unchanged rfl
          · next h =>
            refine .issued _ rfl ?_ rfl
            intro i hi
            have := List.any_eq_false.mp (Bool.eq_false_iff.mpr (fun hc => h hc)) i hi
            simp only [Bool.or_eq_true, beq_iff_eq, not_or] at this
            exact fun hc => this.1 hc
  | accept token userId userEmail now fid =>
    simp only [applyInvitationOp, acceptInvitation]
    split
    · exact .unchanged rfl
    · next inv htok =>
      have hmem : inv ∈ db.organization_invitations := List.mem_of_find?_eq_some htok
      split
      · exact .unchanged rfl
      · next hpend =>
        have hpend' : inv.status = "pending" := by
          simpa using hpend
        split
        · exact .updated inv "expired" hmem hpend' (by tauto) rfl
        · split
          · exact .unchanged rfl
          · split
            · split
              · exact .updated inv "accepted" hmem hpend' (by tauto) rfl
              · exact .updated inv "accepted" hmem hpend' (by tauto) rfl
            · split
              · exact .updated inv "accepted" hmem hpend' (by tauto) rfl
              · exact .updated inv "accepted" hmem hpend' (by tauto) rfl
  | acceptRoutes token userId userEmail now fid =>
    simp only [applyInvitationOp, acceptInvitationRoutes]
    split
    · exact .unchanged rfl
    · next inv htok =>
      have hmem : inv ∈ db.organization_invitations := List.mem_of_find?_eq_some htok
      split
      · exact .unchanged rfl
      · next hpend =>
        have hpend' : inv.status = "pending" := by
          simpa using hpend
        split
        · exact .updated inv "expired" hmem hpend' (by tauto) rfl
        · split
          · exact .unchanged rfl
          · split
            · split
              · exact .updated inv "accepted" hmem hpend' (by tauto) rfl
              · exact .updated inv "accepted" hmem hpend' (by tauto) rfl
            · split
              · exact .updated inv "accepted" hmem hpend' (by tauto) rfl
              · exact .updated inv "accepted" hmem hpend' (by tauto) rfl
  | decline token userEmail now =>
    simp only [applyInvitationOp, declineInvitation]
    split
    · exact .unchanged rfl
    · next inv htok =>
      have hmem : inv ∈ db.organization_invitations := List.mem_of_find?_eq_some htok
      split
      · exact .unchanged rfl
      · next hpend =>
        have hpend' : inv.status = "pending" := by
          simpa using hpend
        split
        · exact .updated inv "expired" hmem hpend' (by tauto) rfl
        · split
          · exact .unchanged rfl
          · exact .updated inv "declined" hmem hpend' (by tauto) rfl
  | declineRoutes token userEmail now =>
    simp only [applyInvitationOp, declineInvitationRoutes]
    split
    · exact .unchanged rfl
    · next inv htok =>
      have hmem : inv ∈ db.organization_invitations := List.mem_of_find?_eq_some htok
      split
      · exact .unchanged rfl
      · next hpend =>
        have hpend' : inv.status = "pending" := by
          simpa using hpend
        split
        · exact .updated inv "expired" hmem hpend' (by tauto) rfl
        · split
          · exact .unchanged rfl
          · exact .updated inv "declined" hmem hpend' (by tauto) rfl

/-- A status update rewrites no `invitation_id`. -/
theorem updateInvitationStatus_map_id (l : List OrganizationInvitation) (ι st : String) :
    (updateInvitationStatus l ι st).map (·.invitation_id) = l.map (·.invitation_id) := by
  simp only [updateInvitationStatus, List.map_map]
  apply List.map_congr_left
  intro i _
  by_cases h : (i.invitation_id == ι) = true <;> simp [h, Function.comp]

/-- Each step keeps the invitation ids pairwise distinct. -/
theorem invitationsStep_nodup {l l' : List OrganizationInvitation}
    (hstep : InvitationsStep l l') (hN : (l.map (·.invitation_id)).Nodup) :
    (l'.map (·.invitation_id)).Nodup := by
  rcases hstep with ⟨rfl⟩ | ⟨inv, st, _, _, _, rfl⟩ | ⟨inv, _, hfresh, rfl⟩
  · exact hN
  · rwa [updateInvitationStatus_map_id]
  · rw [List.map_append]
    refine List.Nodup.append hN (by simp) ?_
    intro x hx
    rcases List.mem_map.mp hx with ⟨i, hi, rfl⟩
    simp only [List.map_cons, List.map_nil, List.mem_cons, List.not_mem_nil, or_false]
    exact hfresh i hi

/-- Along one step, a present invitation stays present and its status
changes only along a `StatusMove`. -/
theorem statusMove_of_invitationsStep {l l' : List OrganizationInvitation}
    (hstep : InvitationsStep l l') (hN : (l.map (·.invitation_id)).Nodup)
    (ι s : String)
    (hs : (l.find? (fun i => i.invitation_id == ι)).map (·.status) = some s) :
    ∃ s', (l'.find? (fun i => i.invitation_id == ι)).map (·.status) = some s' ∧
      StatusMove s s' := by
  obtain ⟨j, hj, hjs⟩ : ∃ j, l.find? (fun i => i.invitation_id == ι) = some j ∧
      j.status = s := by
    cases hfind : l.find? (fun i => i.invitation_id == ι) with
    | none => rw [hfind] at hs; exact absurd hs (by simp)
    | some j =>
      rw [hfind] at hs
      exact ⟨j, rfl, by simpa using hs⟩
  rcases hstep with ⟨rfl⟩ | ⟨inv, st, hinvMem, hinvPend, hst, rfl⟩ | ⟨inv, _, _, rfl⟩
  · exact ⟨s, hs, .inl rfl⟩
  · rw [updateInvitationStatus_find?_id, hj]
    by_cases hij : (j.invitation_id == inv.invitation_id) = true
    · have hid : j.invitation_id = inv.invitation_id := by
        simpa using hij
      have hjeq : j = inv :=
        List.inj_on_of_nodup_map hN (List.mem_of_find?_eq_some hj) hinvMem hid
      refine ⟨st, by simp [hid], .inr ⟨?_, hst⟩⟩
      rw [← hjs, hjeq, hinvPend]
    · have hid : j.invitation_id ≠ inv.invitation_id := by
        simpa using hij
      refine ⟨s, ?_, .inl rfl⟩
      simp [hid, hjs]
  · rw [List.find?_append, hj]
    exact ⟨s, by simp [hjs], .inl rfl⟩

/-- Claim C5: invitation state-machine invariant.  Under every sequence of
the public operations (issue, accept, decline — in either service
revision), starting from a store whose invitation ids are pairwise
distinct, an invitation's status only ever moves from "pending" to exactly
one of "accepted", "declined" or "expired"; no operation changes the
status of an invitation whose status is not "pending". -/
theorem invitation_status_machine_one_way (ops : List InvitationOp) (db : Database)
    (hN : InvitationIdsNodup db) (ι s s' : String)
    (hs : invitationStatus db ι = some s)
    (hs' : invitationStatus (ops.foldl applyInvitationOp db) ι = some s') :
    StatusMove s s' := by
  induction ops generalizing db s with
  | nil =>
    rw [List.foldl_nil, hs] at hs'
    exact .inl (Option.some.inj hs').symm
  | cons op ops ih =>
    rw [List.foldl_cons] at hs'
    have hstep := invitationsStep_of_op db op
    obtain ⟨s₁, hs₁, hmove₁⟩ := statusMove_of_invitationsStep hstep hN ι s hs
    have hN₁ : InvitationIdsNodup (applyInvitationOp db op) := invitationsStep_nodup hstep hN
    exact statusMove_trans hmove₁ (ih (applyInvitationOp db op) hN₁ s₁ hs₁ hs')

/-- Concrete run of claim C5: a pending invitation accepted by its
recipient has moved along an allowed edge of the state machine. -/
theorem invitation_status_machine_one_way_witness :
    StatusMove "pending" "accepted" :=
  invitation_status_machine_one_way
    [.accept "tok-1" "user-9" "bob@example.com" 500 "mem-1"]
    ⟨[], [], [], [], [],
     [⟨"inv-1", "org-1", "bob@example.com", "user-0", "role-1", "tok-1", "pending", 1000⟩],
     []⟩
    (by simp [InvitationIdsNodup]) "inv-1" "pending" "accepted"
    (by decide) (by decide)

end Spec2Proof
